import Mathlib

/-!
Verification development for the troppo GIMME reconstruction pipeline.

The definitions below are a shallow embedding of the Python sources
`src/reconstruction/methods/gimme.py`,
`src/reconstruction/reconstruction_properties.py` and
`src/troppo/methods_wrappers.py`.  Matrices are lists of columns, vectors
are lists of rationals, numpy fancy-indexed assignment becomes `List.set`,
and Python dictionaries become association lists.  Each definition's doc
comment cites the source lines it translates.  Where the source line is
itself broken (an undefined name, a stray bracket, an invalid unpacking)
the doc comment says so and the embedding covers the well-defined
expression the line contains.
-/

/-- An entry of the irreversibility map (`gimme.py`, `rx_mapping`): an
original reaction index maps either to one new index (non-split reaction)
or to a (forward, backward) pair of new indices (split reaction). -/
inductive RxMapEntry where
  | single (i : ℕ)
  | pair (fwd bwd : ℕ)
deriving DecidableEq, Repr

/-- `gimme.py` line 82, the condition selecting reversible reactions:
`lb[i] < 0 and ub[i] > 0`. -/
def is_reversible_rx (lb ub : List ℚ) (i : ℕ) : Bool :=
  decide (lb.getD i 0 < 0) && decide (0 < ub.getD i 0)

/-- `gimme.py` line 82: `irrev = np.array([i for i in range(N) if not (lb[i] < 0 and ub[i] > 0)])`,
the indices of the non-reversible reactions, in order. -/
def irrev_indices (lb ub : List ℚ) : List ℕ :=
  (List.range lb.length).filter (fun i => ! is_reversible_rx lb ub i)

/-- `gimme.py` line 86, the list comprehension `[i for i in range(S.shape[1]) if i not in irrev]`:
the indices of the reversible reactions, in order. -/
def rev_indices (lb ub : List ℚ) : List ℕ :=
  (List.range lb.length).filter (fun i => is_reversible_rx lb ub i)

/-- `gimme.py` line 83, first half: `Si = S[:, irrev]` — the columns of `S`
at the non-reversible indices.  `S` is a list of `N` columns. -/
def Si_cols (S : List (List ℚ)) (lb ub : List ℚ) : List (List ℚ) :=
  (irrev_indices lb ub).map (fun i => S.getD i [])

/-- `gimme.py` line 83, second half: `Sr = S[:, -irrev]`.  As written the
code negates the array of NON-reversible indices elementwise and selects
those columns (numpy index `-i` is column `N - i` for `i > 0` and column
`0` for `i = 0`), so `Sr` has one column per NON-reversible reaction and
is not the reversible block. -/
def Sr_cols (S : List (List ℚ)) (lb ub : List ℚ) : List (List ℚ) :=
  (irrev_indices lb ub).map (fun i => S.getD ((S.length - i) % S.length) [])

/-- `gimme.py` line 89: `S_new = np.hstack([Si, Sr, -Sr])` — the new matrix
is the non-reversible block, then `Sr`, then the elementwise negation of
`Sr` (the backward block). -/
def S_new_cols (S : List (List ℚ)) (lb ub : List ℚ) : List (List ℚ) :=
  Si_cols S lb ub ++ Sr_cols S lb ub ++ (Sr_cols S lb ub).map (List.map Neg.neg)

/-- `gimme.py` line 86, the dictionary comprehension
`{ii: (offset + n, offset + n + Sr.shape[1]) for n, ii in enumerate([i for i in range(N) if i not in irrev])}`
(the surrounding statement also uses the name `rx_mapping` before any
assignment to it and carries an unmatched closing bracket; the expression
itself is embedded here).  `offset = Si.shape[1]` (line 84) and
`Sr.shape[1]` both equal the number of NON-reversible indices, by line 83.
Each triple is `(original index, forward index, backward index)`. -/
def rev_pair_mapping (lb ub : List ℚ) : List (ℕ × ℕ × ℕ) :=
  (rev_indices lb ub).enum.map
    (fun p => (p.2, (irrev_indices lb ub).length + p.1,
      (irrev_indices lb ub).length + p.1 + (irrev_indices lb ub).length))

/-- `gimme.py` lines 90–96: the loop deriving the new bound vectors from
`rx_mapping`.  Line 90 (`nlb, nub = np.zeros(S_new.shape[1])`) as written
unpacks one array into two names; both vectors are embedded as the zero
vectors the line evidently intends.  The loop body is translated exactly:
for a pair entry the code assigns `nub[fwd] = lb[orig]` and
`nub[bwd] = ub[orig]` (lines 93–94) and leaves both lower bounds at 0;
for a single entry it assigns `nlb[new] = lb[orig]` and
`nub[new] = ub[orig]` (line 96). -/
def set_new_bounds (nNew : ℕ) (mapping : List (ℕ × RxMapEntry)) (lb ub : List ℚ) :
    List ℚ × List ℚ :=
  mapping.foldl
    (fun acc m =>
      match m with
      | (orig, RxMapEntry.pair f b) =>
          (acc.1, (acc.2.set f (lb.getD orig 0)).set b (ub.getD orig 0))
      | (orig, RxMapEntry.single j) =>
          (acc.1.set j (lb.getD orig 0), acc.2.set j (ub.getD orig 0)))
    (List.replicate nNew 0, List.replicate nNew 0)

/-- C1: the irreversibility transform is claimed to give a split reaction a
forward slot with bounds (0, ub) and a backward slot with bounds (0, -lb);
on a reversible reaction with lb = -5, ub = 5 the bound-derivation loop of
`make_irreversible` instead produces forward bounds (0, -5) — the original
negative lower bound as the forward UPPER bound, a malformed slot with
lower bound above upper bound — and backward bounds (0, 5), not (0, 5) and
(0, 5) as claimed. -/
theorem make_irreversible_bounds_eval_at_rev_minus5_5 :
    (set_new_bounds 2 [(0, RxMapEntry.pair 0 1)] [-5] [5]).1 = [0, 0] ∧
    (set_new_bounds 2 [(0, RxMapEntry.pair 0 1)] [-5] [5]).2 = [-5, 5] ∧
    (set_new_bounds 2 [(0, RxMapEntry.pair 0 1)] [-5] [5]).2.getD 0 0 ≠ 5 ∧
    (set_new_bounds 2 [(0, RxMapEntry.pair 0 1)] [-5] [5]).2.getD 0 0 <
      (set_new_bounds 2 [(0, RxMapEntry.pair 0 1)] [-5] [5]).1.getD 0 0 := by
  refine ⟨rfl, rfl, by decide, by decide⟩

/-- C6: the new index space is claimed to satisfy `N' = |irrev| + 2·|rev|`
with every new index claimed exactly once.  On a system with one
non-reversible reaction (index 0) and two reversible reactions (indices 1
and 2), `make_irreversible` as written builds `S_new` with 3 columns
(each of `Si`, `Sr`, `-Sr` has `|irrev|` columns, since line 83 selects
`S[:, -irrev]`), not `1 + 2·2 = 5`; and the pair map from line 86 assigns
the pairs (1, 2) and (2, 3), so new index 2 is claimed twice and new
index 3 falls outside the 3-column matrix. -/
theorem make_irreversible_index_cover_eval :
    (S_new_cols [[1], [2], [3]] [0, -1, -1] [1, 1, 1]).length = 3 ∧
    (irrev_indices [0, -1, -1] [1, 1, 1]).length = 1 ∧
    (rev_indices [0, -1, -1] [1, 1, 1]).length = 2 ∧
    (3 : ℕ) ≠ 1 + 2 * 2 ∧
    rev_pair_mapping [0, -1, -1] [1, 1, 1] = [(1, 1, 2), (2, 2, 3)] ∧
    ((rev_pair_mapping [0, -1, -1] [1, 1, 1]).map (fun t => t.2.1) ++
      (rev_pair_mapping [0, -1, -1] [1, 1, 1]).map (fun t => t.2.2)).count 2 = 2 := by
  refine ⟨by decide, by decide, by decide, by decide, by decide, by decide⟩

/-- `gimme.py` lines 26–30, the evidence-mapping loop of `preprocess`:
`exp_vector = np.zeros(Sn.shape[1])`, then for each `(rxn, val)` in the
supplied evidence, `rxmap = irrev_mapping[rxn]`, and ONLY
`if isinstance(rxmap, tuple): exp_vector[rxmap[0]] = exp_vector[rxmap[1]] = val`.
The loop has no else branch: an entry whose map value is a single index is
never assigned and its slot keeps the default 0. -/
def exp_vector_of (nNew : ℕ) (exp_rxns : List (ℕ × ℚ))
    (mapping : List (ℕ × RxMapEntry)) : List ℚ :=
  exp_rxns.foldl
    (fun acc rv =>
      match List.lookup rv.1 mapping with
      | some (RxMapEntry.pair f b) => (acc.set f rv.2).set b rv.2
      | _ => acc)
    (List.replicate nNew 0)

/-- `gimme.py` line 68, the fold-back
`[np.max(reaction_activity_irrev_model[new]) for orig, new in irrev_mapping]`:
per original reaction, the maximum of the activity values at its one or
two new indices.  (As written the comprehension iterates the dictionary
itself rather than `.items()`, so `orig, new` unpacks the integer keys;
the embedding covers the per-entry maximum the line evidently computes.) -/
def reaction_activity_original_of (mapping : List (ℕ × RxMapEntry))
    (activity : List ℚ) : List ℚ :=
  mapping.map
    (fun m =>
      match m.2 with
      | RxMapEntry.single j => activity.getD j 0
      | RxMapEntry.pair f b => max (activity.getD f 0) (activity.getD b 0))

/-- `gimme.py` line 55, the phase-2 penalty objective:
`[flux_thres - exp_vector[i] if -1 < exp_vector[i] < flux_thres else 0 for i in range(N)]`. -/
def gimme_model_objective (exp_vector : List ℚ) (flux_thres : ℚ) : List ℚ :=
  (List.range exp_vector.length).map
    (fun i =>
      if -1 < exp_vector.getD i 0 ∧ exp_vector.getD i 0 < flux_thres then
        flux_thres - exp_vector.getD i 0
      else 0)

/-- `gimme.py` line 57:
`objective_lbs = sum(list(map(lambda a, b: a * b, objectives, objective_values)))` —
the elementwise sum over objectives of each objective vector scaled by its
phase-1 optimal value. -/
def objective_lbs (objectives : List (List ℚ)) (objective_values : List ℚ) : List ℚ :=
  match (objectives.zip objective_values).map (fun ov => ov.1.map (fun x => x * ov.2)) with
  | [] => []
  | h :: t => t.foldl (List.zipWith (fun a b => a + b)) h

/-- `gimme.py` lines 58–59:
`objective_ids = np.nonzero(objective_lbs)[0]` and
`lb[objective_ids] = objective_lbs[objective_ids]` — at every index whose
combined objective bound is nonzero, the lower bound is OVERWRITTEN with
that value; other indices keep their lower bound. -/
def apply_objective_lbs (lb olbs : List ℚ) : List ℚ :=
  List.zipWith (fun l o => if o ≠ 0 then o else l) lb olbs

/-- `gimme.py` line 101:
`gimme_fluxes = np.array([kv[0] for i, kv in enumerate(solution.var_values().items())])`.
`var_values()` is the solution's dictionary from variable name to value,
so each `kv` is a (name, value) pair and `kv[0]` is the NAME, not the
flux value. -/
def gimme_fluxes (var_values : List (String × ℚ)) : List String :=
  var_values.map (fun kv => kv.1)

/-- `gimme.py` lines 102–105, the activity assignment given a flux vector
and the evidence vector: start from zeros, set 1 where
`exp_vector > flux_threshold` or `exp_vector == -1` (line 104), then set 2
where the flux is positive (line 105) — the later assignment wins. -/
def activity_assign (fluxes exp_vector : List ℚ) (flux_threshold : ℚ) : List ℚ :=
  (List.range fluxes.length).map
    (fun i =>
      if 0 < fluxes.getD i 0 then 2
      else if flux_threshold < exp_vector.getD i 0 ∨ exp_vector.getD i 0 = -1 then 1
      else 0)

/-- External optimizer outcome, modelled from the spec's solver interface
(spec section 6: `optimize(system, objective, maximize) → Solution | Infeasible`);
the optimizer itself is an external collaborator, not code of this
repository. -/
inductive SolveOutcome where
  | optimal (v : ℚ)
  | infeasible
deriving DecidableEq, Repr

/-- The objective value carried by a solve outcome: a value when optimal,
nothing when infeasible. -/
def objective_value_of : SolveOutcome → Option ℚ
  | SolveOutcome.optimal v => some v
  | SolveOutcome.infeasible => none

/-- `gimme.py` lines 48–53: `find_objective_value` calls the optimizer and
returns `sol.objective_value()` (marked `## TODO: Must implement`), and
line 53 maps it over the objectives.  Nothing inspects the outcome, no
exception type is defined or raised anywhere in the module, so an
infeasible outcome passes through silently. -/
def phase1_objective_values (outcomes : List SolveOutcome) : List (Option ℚ) :=
  outcomes.map objective_value_of

/-- `methods_wrappers.py` line 166: the declared default of the
`raise_errors` parameter of `run_from_omics` is `True`. -/
def run_from_omics_raise_errors_default : Bool := true

/-- `methods_wrappers.py` lines 219–229, the error handling of
`run_from_omics`: on success, `result_names = [r_ids[k] for k in
algorithm_result]` and the call returns `{k: k in result_names for k in
r_ids}`; on an exception, after printing the cause, it re-raises when
`raise_errors` holds and otherwise returns `{r: False for r in r_ids}`.
The run outcome is the `Except` value of the underlying algorithm call. -/
def run_from_omics_result {E : Type} (raise_errors : Bool) (r_ids : List String)
    (run_outcome : Except E (List ℕ)) : Except E (List (String × Bool)) :=
  match run_outcome with
  | Except.ok algorithm_result =>
      Except.ok (r_ids.map
        (fun k => (k, (algorithm_result.map (fun j => r_ids.getD j "")).contains k)))
  | Except.error e =>
      if raise_errors then Except.error e
      else Except.ok (r_ids.map (fun r => (r, false)))

/-- The argument accepted by `GIMMEProperties.__init__` for `obj_frac`
(`reconstruction_properties.py` line 42): either a numpy array or a
scalar. -/
inductive ObjFracArg where
  | scalar (x : ℚ)
  | arr (xs : List ℚ)
deriving DecidableEq, Repr

/-- The values `GIMMEProperties.__init__` stores
(`reconstruction_properties.py` lines 40–44). -/
structure GIMMEPropertiesStore where
  objectives : List (List ℚ)
  exp_vector : List ℚ
  obj_frac : List ℚ
  preprocess_flag : Bool
  flux_threshold : ℚ
deriving DecidableEq, Repr

/-- `reconstruction_properties.py` lines 29–44, the assignments of
`GIMMEProperties.__init__` (signature defaults: `obj_frac=0.9`,
`preprocess=False`, `flux_threshold=None`):
`self['obj_frac'] = obj_frac if isinstance(obj_frac, ndarray) else array([obj_frac]*len(objectives))`,
`self['preprocess'] = True if preprocess else False` (Python truthiness:
`None` and `False` both store `False`), and
`self['flux_threshold'] = 1e-4 if flux_threshold is None else flux_threshold`.
The module never imports `ndarray` or `array` from numpy, so the
constructor as written stops with a `NameError` before completing these
stores; the assignments themselves are embedded here. -/
def gimme_properties_init (exp_vector : List ℚ) (objectives : List (List ℚ))
    (obj_frac : ObjFracArg) (preprocess_arg : Option Bool)
    (flux_threshold : Option ℚ) : GIMMEPropertiesStore :=
  { objectives := objectives
    exp_vector := exp_vector
    obj_frac :=
      match obj_frac with
      | ObjFracArg.arr xs => xs
      | ObjFracArg.scalar x => List.replicate objectives.length x
    preprocess_flag :=
      match preprocess_arg with
      | some true => true
      | _ => false
    flux_threshold := flux_threshold.getD (1 / 10000) }

/-- Reading a map over `List.range` at an in-range position. -/
theorem getD_range_map (f : ℕ → ℚ) {n i : ℕ} (h : i < n) :
    ((List.range n).map f).getD i 0 = f i := by
  rw [List.getD_eq_getElem _ _ (by simpa using h)]
  simp

/-- Reading a `zipWith` at a position below both lengths. -/
theorem getD_zipWith (f : ℚ → ℚ → ℚ) {as bs : List ℚ} {i : ℕ}
    (ha : i < as.length) (hb : i < bs.length) :
    (List.zipWith f as bs).getD i 0 = f (as.getD i 0) (bs.getD i 0) := by
  rw [List.getD_eq_getElem _ _ (by rw [List.length_zipWith]; omega),
    List.getD_eq_getElem _ _ ha, List.getD_eq_getElem _ _ hb]
  simp

/-- C2 counterexample: the bound-tightening step of `run` is claimed never
to lower an existing bound; with one objective `[1]` whose phase-1 value
is 3 and an existing irreversible lower bound of 5, the combined
`objective_lbs` is `[3]`, the index is nonzero, and lines 58–59 overwrite
the bound: the lower bound after the step is 3, strictly below the lower
bound before it. -/
theorem run_bound_tightening_counterexample :
    apply_objective_lbs [5] (objective_lbs [[1]] [3]) = [3] ∧
    (apply_objective_lbs [5] (objective_lbs [[1]] [3])).getD 0 0 <
      ([(5 : ℚ)]).getD 0 0 := by
  have h1 : objective_lbs [[1]] [3] = [3] := by
    show [((1 : ℚ) * 3)] = [3]
    norm_num
  rw [h1]
  refine ⟨by decide, by decide⟩

/-- C2 amended: at every index with a nonzero combined objective bound,
the tightening step assigns that value unconditionally — it does not
compare with the existing bound — while indices with a zero combined
bound keep their lower bound; consequently the step is monotonic at an
index exactly when the combined bound there is zero or at least the
existing bound. -/
theorem run_bound_tightening_assigns_unconditionally (lb olbs : List ℚ) (i : ℕ)
    (h1 : i < lb.length) (h2 : i < olbs.length) :
    (olbs.getD i 0 ≠ 0 → (apply_objective_lbs lb olbs).getD i 0 = olbs.getD i 0) ∧
    (olbs.getD i 0 = 0 → (apply_objective_lbs lb olbs).getD i 0 = lb.getD i 0) ∧
    (lb.getD i 0 ≤ (apply_objective_lbs lb olbs).getD i 0 ↔
      olbs.getD i 0 = 0 ∨ lb.getD i 0 ≤ olbs.getD i 0) := by
  have key : (apply_objective_lbs lb olbs).getD i 0 =
      if olbs.getD i 0 ≠ 0 then olbs.getD i 0 else lb.getD i 0 :=
    getD_zipWith _ h1 h2
  rw [key]
  generalize olbs.getD i 0 = o
  generalize lb.getD i 0 = l
  rcases eq_or_ne o 0 with h | h
  · subst h
    simp
  · simp [h]

/-- C2 witness: the amended statement instantiated at `lb = [5]`,
`olbs = [3]`, index 0. -/
theorem run_bound_tightening_assigns_unconditionally_witness :
    (0 < ([(5 : ℚ)]).length ∧ 0 < ([(3 : ℚ)]).length) ∧
    ((([(3 : ℚ)]).getD 0 0 ≠ 0 →
        (apply_objective_lbs [(5 : ℚ)] [(3 : ℚ)]).getD 0 0 = ([(3 : ℚ)]).getD 0 0) ∧
     (([(3 : ℚ)]).getD 0 0 = 0 →
        (apply_objective_lbs [(5 : ℚ)] [(3 : ℚ)]).getD 0 0 = ([(5 : ℚ)]).getD 0 0) ∧
     (([(5 : ℚ)]).getD 0 0 ≤ (apply_objective_lbs [(5 : ℚ)] [(3 : ℚ)]).getD 0 0 ↔
        ([(3 : ℚ)]).getD 0 0 = 0 ∨ ([(5 : ℚ)]).getD 0 0 ≤ ([(3 : ℚ)]).getD 0 0)) :=
  ⟨⟨by decide, by decide⟩,
    run_bound_tightening_assigns_unconditionally [5] [3] 0 (by decide) (by decide)⟩

/-- C3: the evidence-mapping loop of `preprocess` assigns the supplied
value to both slots of a pair map entry (and the two slots are equal),
but — having no else branch — never assigns an entry whose map value is a
single index: with evidence 7 on a non-split reaction mapped to slot 0,
the irreversible evidence vector stays `[0]`, not `[7]`. -/
theorem preprocess_exp_vector_eval :
    exp_vector_of 2 [(0, 7)] [(0, RxMapEntry.pair 0 1)] = [7, 7] ∧
    exp_vector_of 1 [(0, 7)] [(0, RxMapEntry.single 0)] = [0] ∧
    exp_vector_of 1 [(0, 7)] [(0, RxMapEntry.single 0)] ≠ [7] := by
  refine ⟨by decide, by decide, by decide⟩

/-- C4: the phase-2 penalty objective of `run` (line 55) equals
`flux_threshold - evidence[i]` exactly when `-1 < evidence[i] <
flux_threshold` and is 0 otherwise; in particular evidence exactly at the
threshold (exclusive upper boundary) and the sentinel -1 both yield
penalty 0. -/
theorem run_penalty_objective (e : List ℚ) (t : ℚ) (i : ℕ) (hi : i < e.length) :
    ((gimme_model_objective e t).getD i 0 =
      if -1 < e.getD i 0 ∧ e.getD i 0 < t then t - e.getD i 0 else 0) ∧
    (e.getD i 0 = t → (gimme_model_objective e t).getD i 0 = 0) ∧
    (e.getD i 0 = -1 → (gimme_model_objective e t).getD i 0 = 0) := by
  have key : (gimme_model_objective e t).getD i 0 =
      if -1 < e.getD i 0 ∧ e.getD i 0 < t then t - e.getD i 0 else 0 := by
    unfold gimme_model_objective
    exact getD_range_map _ hi
  refine ⟨key, ?_, ?_⟩
  · intro h
    rw [key, h]
    simp
  · intro h
    rw [key, h]
    simp

/-- C4 witness: the penalty statement instantiated at the default
threshold 1/10000 with a single evidence value exactly equal to it
(spec scenario C). -/
theorem run_penalty_objective_witness :
    0 < ([(1 : ℚ)/10000]).length ∧
    (((gimme_model_objective [(1 : ℚ)/10000] ((1 : ℚ)/10000)).getD 0 0 =
        if -1 < ([(1 : ℚ)/10000]).getD 0 0 ∧
            ([(1 : ℚ)/10000]).getD 0 0 < (1 : ℚ)/10000 then
          (1 : ℚ)/10000 - ([(1 : ℚ)/10000]).getD 0 0
        else 0) ∧
     (([(1 : ℚ)/10000]).getD 0 0 = (1 : ℚ)/10000 →
        (gimme_model_objective [(1 : ℚ)/10000] ((1 : ℚ)/10000)).getD 0 0 = 0) ∧
     (([(1 : ℚ)/10000]).getD 0 0 = -1 →
        (gimme_model_objective [(1 : ℚ)/10000] ((1 : ℚ)/10000)).getD 0 0 = 0)) :=
  ⟨by decide, run_penalty_objective [(1 : ℚ)/10000] ((1 : ℚ)/10000) 0 (by decide)⟩

/-- C5: `get_reaction_activity` builds its flux vector from
`solution.var_values().items()` by taking `kv[0]` of each pair — the
dictionary KEY, that is the variable name, not the flux value: on a
solution whose single variable `GIMME0` carries flux 5, the extracted
vector is the name list `["GIMME0"]`, while the values list `[5]` is never
read. -/
theorem get_reaction_activity_fluxes_eval :
    gimme_fluxes [("GIMME0", (5 : ℚ))] = ["GIMME0"] ∧
    ([("GIMME0", (5 : ℚ))]).map Prod.snd = [(5 : ℚ)] :=
  ⟨rfl, rfl⟩

/-- C7: the round trip is claimed to be the identity for every evidence
vector; expanding evidence 7 on a non-split reaction (map entry `single
0`) gives `[0]` because the expansion loop has no scalar branch, and the
fold-back maximum returns `[0]`, not the original `[7]`.  For a split
reaction the round trip does return the original value. -/
theorem run_fold_back_round_trip_eval :
    reaction_activity_original_of [(0, RxMapEntry.single 0)]
        (exp_vector_of 1 [(0, 7)] [(0, RxMapEntry.single 0)]) = [0] ∧
    reaction_activity_original_of [(0, RxMapEntry.single 0)]
        (exp_vector_of 1 [(0, 7)] [(0, RxMapEntry.single 0)]) ≠ [7] ∧
    reaction_activity_original_of [(0, RxMapEntry.pair 0 1)]
        (exp_vector_of 2 [(0, 7)] [(0, RxMapEntry.pair 0 1)]) = [7] := by
  refine ⟨by decide, by decide, by decide⟩

/-- C8: phase 1 of `run` is claimed to fail the whole run with
`ReconstructionInfeasibleError` when any objective's solve is infeasible;
the code maps `sol.objective_value()` over the objectives with no status
check and no raise, so with two objectives of which the second is
infeasible the phase-1 value list simply carries the infeasible outcome
through and the run proceeds. -/
theorem run_phase1_infeasible_passes_through :
    phase1_objective_values [SolveOutcome.optimal 10, SolveOutcome.infeasible] =
      [some 10, none] :=
  rfl

/-- C9: in `run_from_omics`, error suppression is opt-in and never the
default: with `raise_errors = False` an algorithm failure is downgraded to
`ok` with every reaction identifier mapped to `False`; with
`raise_errors = True` — the declared default — the exception is
re-raised. -/
theorem run_from_omics_error_policy {E : Type} (e : E) (r_ids : List String) :
    run_from_omics_result false r_ids (Except.error e) =
      Except.ok (r_ids.map (fun r => (r, false))) ∧
    ((r_ids.map (fun r => (r, false))).all (fun p => p.2 == false)) = true ∧
    run_from_omics_result true r_ids (Except.error e) = Except.error e ∧
    run_from_omics_raise_errors_default = true := by
  refine ⟨rfl, ?_, rfl, rfl⟩
  simp [List.all_eq_true]

/-- C10: the assignments of `GIMMEProperties.__init__`, as written,
normalize: a scalar `obj_frac` is stored as a list of `len(objectives)`
copies, `preprocess` is stored as exactly true or false with `None`
stored as false, and a `None` `flux_threshold` is stored as 1e-4. -/
theorem gimme_properties_normalization (ev : List ℚ) (objs : List (List ℚ))
    (x : ℚ) (p : Option Bool) (t : Option ℚ) :
    (gimme_properties_init ev objs (ObjFracArg.scalar x) p t).obj_frac =
      List.replicate objs.length x ∧
    (gimme_properties_init ev objs (ObjFracArg.scalar x) none t).preprocess_flag
      = false ∧
    ((gimme_properties_init ev objs (ObjFracArg.scalar x) p t).preprocess_flag
        = true ∨
      (gimme_properties_init ev objs (ObjFracArg.scalar x) p t).preprocess_flag
        = false) ∧
    (gimme_properties_init ev objs (ObjFracArg.scalar x) p none).flux_threshold
      = 1 / 10000 := by
  refine ⟨rfl, rfl, ?_, rfl⟩
  cases (gimme_properties_init ev objs (ObjFracArg.scalar x) p t).preprocess_flag
  · exact Or.inr rfl
  · exact Or.inl rfl
